import Mathlib

/-!
Verification of the IIS log → CSV/XLSX converter (`IIS-Log2CSV.py`).

Python strings are modelled as lists of characters (`PyStr`), and the
Python string methods the source uses (`startswith`, `strip`,
`split(" ")`, `split()`, `join`, `lower`) are given explicit definitions
with their documented CPython semantics.  File I/O is modelled by passing
a file's lines in as a value and returning written contents (or a trace
of filesystem events) as values; `raise`/`except` becomes `Except`.
-/

/-- A Python string, modelled as its list of characters. -/
abbrev PyStr := List Char

/-- Python `s.startswith(pre)`. -/
def pyStartsWith (s pre : PyStr) : Bool :=
  pre.isPrefixOf s

/-- Python `s.strip()`: remove leading and trailing whitespace. -/
def pyStrip (s : PyStr) : PyStr :=
  ((s.dropWhile Char.isWhitespace).reverse.dropWhile Char.isWhitespace).reverse

/-- Python `s.split(sep)` for a one-character separator: split at every
occurrence of `sep`, keeping empty pieces. -/
def pySplitOn (sep : Char) (s : PyStr) : List PyStr :=
  s.splitOn sep

/-- Python `s.split()` with no separator: split on runs of whitespace,
discarding empty pieces. -/
def pySplitWs (s : PyStr) : List PyStr :=
  (s.splitOnP Char.isWhitespace).filter (· ≠ [])

/-- Python `sep.join(xs)`. -/
def pyJoin (sep : PyStr) (xs : List PyStr) : PyStr :=
  sep.intercalate xs

/-- Python `s.lower()`. -/
def pyLower (s : PyStr) : PyStr :=
  s.map Char.toLower

/-- `CHUNK_SIZE = 10_000` from the source. -/
def CHUNK_SIZE : Nat := 10000

/-- `EXCEL_ROW_LIMIT = 1_048_576` from the source. -/
def EXCEL_ROW_LIMIT : Nat := 1048576

/-- The two `ValueError`s raised by `validate_log_data`, distinguished by
their messages.  The spec calls them `MissingHeaderError` ("No #Fields
line found in log file: …") and `EmptyDataError` ("No valid data lines
found in log file: …"); both carry the source file path. -/
inductive LogError where
  | missingHeader (file_path : String)
  | emptyData (file_path : String)
deriving DecidableEq

/-- Effect of one iteration of `validate_log_data`'s loop on its
`headers` variable: `if line.startswith("#Fields"): headers =
line.strip().split(" ")[1:]`. -/
def header_step (headers : Option (List PyStr)) (line : PyStr) : Option (List PyStr) :=
  if pyStartsWith line "#Fields".data then
    some ((pySplitOn ' ' (pyStrip line)).drop 1)
  else headers

/-- Effect of one iteration of `validate_log_data`'s loop on its
`log_lines` variable: `elif not line.startswith("#") and line.strip():
log_lines.append(line.strip())`. -/
def data_step (log_lines : List PyStr) (line : PyStr) : List PyStr :=
  if pyStartsWith line "#Fields".data then
    log_lines
  else if !pyStartsWith line "#".data && !(pyStrip line).isEmpty then
    log_lines ++ [pyStrip line]
  else log_lines

/-- `validate_log_data`: one pass over the file's lines updating
`headers` and `log_lines`, then `if not headers: raise` (which fires both
for `None` and for an empty list) and `if not log_lines: raise`.  The
returned generator is modelled by the buffered `log_lines` list it
ranges over. -/
def validate_log_data (file_path : String) (lines : List PyStr) :
    Except LogError (List PyStr × List PyStr) :=
  let st := lines.foldl (fun st line => (header_step st.1 line, data_step st.2 line)) (none, [])
  match st.1 with
  | none => .error (.missingHeader file_path)
  | some [] => .error (.missingHeader file_path)
  | some headers =>
    if st.2 = [] then .error (.emptyData file_path)
    else .ok (headers, st.2)

/-- The `headers` variable after `validate_log_data`'s loop. -/
def headers_of (lines : List PyStr) : Option (List PyStr) :=
  lines.foldl header_step none

/-- The `log_lines` variable after `validate_log_data`'s loop. -/
def retained_of (lines : List PyStr) : List PyStr :=
  lines.foldl data_step []

/-! ### Chunked writer — delimited text (`write_to_csv`) -/

/-- One output row: `",".join(line.split())`. -/
def csv_line (line : PyStr) : PyStr :=
  pyJoin ",".data (pySplitWs line)

/-- One iteration of `write_to_csv`'s loop: append the serialized row to
the chunk and, once the chunk holds `CHUNK_SIZE` rows, flush it
(`"\n".join(chunk) + "\n"`) onto the output and clear it.  The state is
(text written so far, pending chunk). -/
def csv_step (st : PyStr × List PyStr) (line : PyStr) : PyStr × List PyStr :=
  let chunk := st.2 ++ [csv_line line]
  if CHUNK_SIZE ≤ chunk.length then
    (st.1 ++ pyJoin "\n".data chunk ++ "\n".data, [])
  else (st.1, chunk)

/-- The final partial-chunk flush of `write_to_csv`. -/
def csv_finish (st : PyStr × List PyStr) : PyStr :=
  if st.2 ≠ [] then st.1 ++ pyJoin "\n".data st.2 ++ "\n".data else st.1

/-- `write_to_csv`, returning the full text written to the destination
file: the header line `",".join(headers) + "\n"` followed by the chunked
row flushes. -/
def write_to_csv (headers : List PyStr) (log_lines : List PyStr) : PyStr :=
  csv_finish (log_lines.foldl csv_step (pyJoin ",".data headers ++ "\n".data, []))

/-- The text of a sequence of lines, each terminated by a newline. -/
def lines_text (ls : List PyStr) : PyStr :=
  (ls.map (· ++ "\n".data)).flatten

/-- Python `s.split(",")`, the re-splitting operation the spec's
round-trip property applies to an output line. -/
def pySplitComma (s : PyStr) : List PyStr :=
  s.splitOn ','

/-! ### Chunked writer — tabular workbook (`write_to_excel`) -/

/-- A data row of the workbook: one cell per token. -/
abbrev Row := List PyStr

/-- A workbook: sheets in creation order, each a name and its grid of
rows (header rows included). -/
abbrev Workbook := List (String × List Row)

/-- The sheet name `f"Sheet{sheet_number}"`. -/
def sheet_name (sheet_number : Nat) : String :=
  "Sheet" ++ toString sheet_number

/-- Model of `pd.DataFrame(chunk, columns=headers).to_excel(writer,
index=False, sheet_name=name)` on an open `pd.ExcelWriter` with the
`openpyxl` engine: the block (header row followed by the chunk's rows) is
written starting at the top-left cell of the named sheet — there is no
`startrow` argument in the source — creating the sheet if it does not
exist; rows of the sheet below the written block keep their previous
contents. -/
def to_excel (wb : Workbook) (name : String) (content : List Row) : Workbook :=
  if wb.any (fun s => s.1 == name) then
    wb.map (fun s => if s.1 == name then (s.1, content ++ s.2.drop content.length) else s)
  else wb ++ [(name, content)]

/-- One iteration of `write_to_excel`'s loop over the data lines.  State:
`(sheet_number, current_row_count, chunk, workbook)`.  The row is
appended to the chunk and the row count incremented; a full chunk is
flushed to the current sheet; reaching `EXCEL_ROW_LIMIT` rows advances
the sheet number and resets the count. -/
def excel_step (headers : List PyStr) (st : Nat × Nat × List Row × Workbook)
    (line : PyStr) : Nat × Nat × List Row × Workbook :=
  let (sheet_number, current_row_count, chunk, wb) := st
  let chunk := chunk ++ [pySplitWs line]
  let current_row_count := current_row_count + 1
  let (chunk, wb) :=
    if CHUNK_SIZE ≤ chunk.length then
      ([], to_excel wb (sheet_name sheet_number) (headers :: chunk))
    else (chunk, wb)
  if EXCEL_ROW_LIMIT ≤ current_row_count then
    (sheet_number + 1, 0, chunk, wb)
  else (sheet_number, current_row_count, chunk, wb)

/-- `write_to_excel`, returning the workbook contents: loop over the data
lines, then flush any remaining partial chunk to the current sheet. -/
def write_to_excel (headers : List PyStr) (log_lines : List PyStr) : Workbook :=
  let st := log_lines.foldl (excel_step headers) (1, 0, [], [])
  if st.2.2.1 ≠ [] then
    to_excel st.2.2.2 (sheet_name st.1) (headers :: st.2.2.1)
  else st.2.2.2

/-- The data rows of a workbook, sheets concatenated in order, the header
row of each write block dropped. -/
def workbook_data_rows (wb : Workbook) : List Row :=
  (wb.map (fun s => s.2.drop 1)).flatten

/-! ### Conversion orchestrator (`convert_log_to_output`) -/

/-- Failures that the `try` block of `convert_log_to_output` can raise:
`Path.relative_to`'s `ValueError`, an I/O or decode error while opening
and reading the source, the two validation `ValueError`s, and the
unsupported-format `ValueError`. -/
inductive ConvError where
  | relativePathError (log_file source_dir : String)
  | readError (msg : String)
  | validationError (e : LogError)
  | unsupportedFormat (output_format : String)
deriving DecidableEq

/-- Filesystem effects of one conversion: creating the destination's
parent directories, and writing a destination file (with its complete
contents — the writers close the file before returning). -/
inductive FsEvent where
  | mkdirParent (destination_file : String)
  | writeCsv (destination_file : String) (content : PyStr)
  | writeXlsx (destination_file : String) (wb : Workbook)

/-- Whether an event writes a destination output file (directory
creation is not output). -/
def is_write_event : FsEvent → Bool
  | .mkdirParent _ => false
  | .writeCsv _ _ => true
  | .writeXlsx _ _ => true

/-- No event of the trace writes a destination output file. -/
def writes_nothing (events : List FsEvent) : Bool :=
  events.all fun e => !is_write_event e

/-- The orchestrator's report for one file: `logging.info` on success,
`logging.error ("Failed to process {log_file}: {e}")` on a caught
failure. -/
inductive LogMsg where
  | info (msg : String)
  | err (log_file : String) (e : ConvError)

/-- Model of `log_file.relative_to(source_dir)` on string paths: strip
the `source_dir + "/"` prefix, raising `ValueError` when `log_file` is
not under `source_dir`. -/
def relative_to (log_file source_dir : String) : Except ConvError String :=
  if (source_dir ++ "/").data.isPrefixOf log_file.data then
    .ok ⟨log_file.data.drop (source_dir ++ "/").data.length⟩
  else .error (.relativePathError log_file source_dir)

/-- Model of `destination_file.with_suffix(f".{ext}")` on string paths:
replace everything after the last `.` (or append when there is none). -/
def with_suffix (destination_file : String) (ext : PyStr) : String :=
  let base :=
    if destination_file.data.contains '.' then
      ((destination_file.data.reverse.dropWhile (· ≠ '.')).drop 1).reverse
    else destination_file.data
  ⟨base ++ ('.' :: ext)⟩

/-- The body of `convert_log_to_output`'s `try` block: compute the
destination path, create its parent directories, validate, and dispatch
to the writer for the requested format.  `read_result` stands for the
outcome of opening and decoding the source file (done inside
`validate_log_data` in the source).  Returns the filesystem events
performed together with the outcome (`.error` = the exception that was
raised). -/
def convert_attempt (read_result : Except String (List PyStr))
    (log_file source_dir destination_dir output_format : String) :
    List FsEvent × Except ConvError Unit :=
  match relative_to log_file source_dir with
  | .error e => ([], .error e)
  | .ok relative_path =>
    let destination_file :=
      with_suffix (destination_dir ++ "/" ++ relative_path) (pyLower output_format.data)
    let events := [FsEvent.mkdirParent destination_file]
    match read_result with
    | .error m => (events, .error (.readError m))
    | .ok lines =>
      match validate_log_data log_file lines with
      | .error e => (events, .error (.validationError e))
      | .ok (headers, log_line_generator) =>
        if pyLower output_format.data = "csv".data then
          (events ++ [.writeCsv destination_file (write_to_csv headers log_line_generator)],
           .ok ())
        else if pyLower output_format.data = "xlsx".data then
          (events ++ [.writeXlsx destination_file (write_to_excel headers log_line_generator)],
           .ok ())
        else (events, .error (.unsupportedFormat output_format))

/-- `convert_log_to_output`: the `try` block wrapped in
`except Exception as e: logging.error(...)` — every failure of the
attempt is caught and turned into an error report, never re-raised. -/
def convert_log_to_output (read_result : Except String (List PyStr))
    (log_file source_dir destination_dir output_format : String) :
    List FsEvent × LogMsg :=
  match convert_attempt read_result log_file source_dir destination_dir output_format with
  | (events, .ok _) => (events, .info ("Converted: " ++ log_file))
  | (events, .error e) => (events, .err log_file e)

/-- Decidable equality for `Except`, for evaluating the embedding on
concrete documents. -/
instance instDecEqExcept {ε α : Type} [DecidableEq ε] [DecidableEq α] :
    DecidableEq (Except ε α) := fun a b =>
  match a, b with
  | .error x, .error y =>
    if h : x = y then .isTrue (by rw [h]) else .isFalse (by intro hc; cases hc; exact h rfl)
  | .error _, .ok _ => .isFalse (by intro hc; cases hc)
  | .ok _, .error _ => .isFalse (by intro hc; cases hc)
  | .ok x, .ok y =>
    if h : x = y then .isTrue (by rw [h]) else .isFalse (by intro hc; cases hc; exact h rfl)

/-! ### General lemmas about the embedded operations -/

lemma foldl_pair (lines : List PyStr) (a : Option (List PyStr)) (b : List PyStr) :
    lines.foldl (fun st line => (header_step st.1 line, data_step st.2 line)) (a, b)
      = (lines.foldl header_step a, lines.foldl data_step b) := by
  induction lines generalizing a b with
  | nil => rfl
  | cons l ls ih => simpa using ih _ _

/-- `validate_log_data` in terms of the two per-variable folds. -/
lemma validate_eq (p : String) (lines : List PyStr) :
    validate_log_data p lines =
      match headers_of lines with
      | none => .error (.missingHeader p)
      | some [] => .error (.missingHeader p)
      | some headers =>
        if retained_of lines = [] then .error (.emptyData p)
        else .ok (headers, retained_of lines) := by
  unfold validate_log_data headers_of retained_of
  rw [foldl_pair]

lemma foldl_header_step_of_no_directive (ys : List PyStr) (acc : Option (List PyStr))
    (h : ∀ l ∈ ys, pyStartsWith l "#Fields".data = false) :
    ys.foldl header_step acc = acc := by
  induction ys generalizing acc with
  | nil => rfl
  | cons l ls ih =>
    have hl : pyStartsWith l "#Fields".data = false := h l (by simp)
    simp only [List.foldl_cons, header_step, hl]
    exact ih acc fun x hx => h x (by simp [hx])

lemma retained_of_acc (lines : List PyStr) :
    ∀ acc : List PyStr, lines.foldl data_step acc = acc ++ retained_of lines := by
  induction lines with
  | nil => intro acc; simp [retained_of]
  | cons l ls ih =>
    intro acc
    have hstep : ∀ a : List PyStr, data_step a l = a ++ data_step [] l := by
      intro a
      unfold data_step
      split
      · simp
      · split <;> simp
    show List.foldl data_step (data_step acc l) ls = _
    rw [ih (data_step acc l), hstep acc]
    have : retained_of (l :: ls) = data_step [] l ++ retained_of ls := by
      show List.foldl data_step (data_step [] l) ls = _
      rw [ih (data_step [] l)]
    rw [this, List.append_assoc]

lemma retained_of_cons (l : PyStr) (ls : List PyStr) :
    retained_of (l :: ls) = data_step [] l ++ retained_of ls := by
  show List.foldl data_step (data_step [] l) ls = _
  rw [retained_of_acc]

lemma retained_of_append (xs ys : List PyStr) :
    retained_of (xs ++ ys) = retained_of xs ++ retained_of ys := by
  unfold retained_of
  rw [List.foldl_append, retained_of_acc]
  rfl

lemma hash_of_fields (l : PyStr) (h : pyStartsWith l "#Fields".data = true) :
    pyStartsWith l "#".data = true := by
  unfold pyStartsWith at h ⊢
  rw [List.isPrefixOf_iff_prefix] at h ⊢
  exact List.IsPrefix.trans (by decide) h

lemma not_fields_of_not_hash (l : PyStr) (h : pyStartsWith l "#".data = false) :
    pyStartsWith l "#Fields".data = false := by
  cases hf : pyStartsWith l "#Fields".data with
  | false => rfl
  | true => rw [hash_of_fields l hf] at h; cases h

lemma data_step_of_data (l : PyStr) (h1 : pyStartsWith l "#".data = false)
    (h2 : pyStrip l ≠ []) : data_step [] l = [pyStrip l] := by
  unfold data_step
  rw [not_fields_of_not_hash l h1]
  simp [h1, h2]

lemma data_step_of_directive (l : PyStr) (h : pyStartsWith l "#Fields".data = true) :
    data_step [] l = [] := by
  unfold data_step
  rw [h]
  simp

lemma retained_of_data (ls : List PyStr)
    (h : ∀ l ∈ ls, pyStartsWith l "#".data = false ∧ pyStrip l ≠ []) :
    retained_of ls = ls.map pyStrip := by
  induction ls with
  | nil => rfl
  | cons l ls ih =>
    rw [retained_of_cons, data_step_of_data l (h l (by simp)).1 (h l (by simp)).2,
      ih fun x hx => h x (by simp [hx])]
    rfl

lemma headers_of_append (xs ys : List PyStr) :
    headers_of (xs ++ ys) = ys.foldl header_step (headers_of xs) := by
  unfold headers_of
  rw [List.foldl_append]

lemma headers_of_last_directive (xs : List PyStr) (d : PyStr) (ys : List PyStr)
    (hd : pyStartsWith d "#Fields".data = true)
    (hys : ∀ l ∈ ys, pyStartsWith l "#Fields".data = false) :
    headers_of (xs ++ d :: ys) = some ((pySplitOn ' ' (pyStrip d)).drop 1) := by
  rw [headers_of_append, List.foldl_cons,
    foldl_header_step_of_no_directive ys _ hys]
  unfold header_step
  rw [hd]
  simp

lemma join_newline (c : List PyStr) (h : c ≠ []) :
    pyJoin "\n".data c ++ "\n".data = lines_text c := by
  induction c with
  | nil => cases h rfl
  | cons x ys ih =>
    cases ys with
    | nil => simp [pyJoin, List.intercalate, List.intersperse, lines_text]
    | cons y zs =>
      have hstep : pyJoin "\n".data (x :: y :: zs)
          = x ++ "\n".data ++ pyJoin "\n".data (y :: zs) := by
        simp [pyJoin, List.intercalate, List.intersperse]
      rw [hstep, List.append_assoc, List.append_assoc, ih (by simp),
        lines_text, List.map_cons, List.flatten_cons]
      simp [lines_text, List.append_assoc]

lemma lines_text_append (a b : List PyStr) :
    lines_text (a ++ b) = lines_text a ++ lines_text b := by
  simp [lines_text]

lemma csv_loop (rows : List PyStr) :
    ∀ (out : PyStr) (chunk : List PyStr),
      csv_finish (rows.foldl csv_step (out, chunk))
        = out ++ lines_text chunk ++ lines_text (rows.map csv_line) := by
  induction rows with
  | nil =>
    intro out chunk
    by_cases h : chunk = []
    · subst h; simp [csv_finish, lines_text]
    · simp only [List.foldl_nil, List.map_nil, csv_finish, if_pos h]
      rw [List.append_assoc, join_newline chunk h]
      simp [lines_text]
  | cons r rs ih =>
    intro out chunk
    rw [List.foldl_cons]
    by_cases hlen : CHUNK_SIZE ≤ chunk.length + 1
    · have hs : csv_step (out, chunk) r
          = (out ++ (pyJoin "\n".data (chunk ++ [csv_line r]) ++ "\n".data), []) := by
        simp [csv_step, hlen, List.append_assoc]
      rw [hs, ih, join_newline (chunk ++ [csv_line r]) (by simp), lines_text_append]
      simp [lines_text, List.append_assoc]
    · have hs : csv_step (out, chunk) r = (out, chunk ++ [csv_line r]) := by
        simp [csv_step, hlen]
      rw [hs, ih, lines_text_append]
      simp [lines_text, List.append_assoc]

/-- The text `write_to_csv` writes, independent of the chunking: the
header line followed by one serialized line per row. -/
lemma write_to_csv_eq (headers log_lines : List PyStr) :
    write_to_csv headers log_lines
      = pyJoin ",".data headers ++ "\n".data ++ lines_text (log_lines.map csv_line) := by
  unfold write_to_csv
  rw [csv_loop]
  simp [lines_text]

/-! ### Claim theorems -/

/-- C6: a document with no line starting with `#Fields` always fails
validation with the missing-header error naming the source file,
whatever else it contains. -/
theorem missing_directive_missing_header_error (p : String) (lines : List PyStr)
    (h : (lines.all fun l => !pyStartsWith l "#Fields".data) = true) :
    validate_log_data p lines = .error (.missingHeader p) := by
  have hn : headers_of lines = none :=
    foldl_header_step_of_no_directive lines none (by
      intro l hl
      simpa using (List.all_eq_true.mp h) l hl)
  rw [validate_eq, hn]

theorem missing_directive_missing_header_error_witness :
    validate_log_data "u_ex240101.log" ["2024-01-01 GET / 200".data]
      = .error (.missingHeader "u_ex240101.log") :=
  missing_directive_missing_header_error _ _ (by decide)

/-- C7 counterexample: a document with zero retained lines and no
directive fails with the missing-header error, not the empty-data error
— the header check runs first, so "regardless of schema" is false. -/
theorem zero_rows_without_directive_not_empty_data :
    validate_log_data "c.log" ["# Software: Microsoft IIS".data]
        = .error (.missingHeader "c.log")
    ∧ validate_log_data "c.log" ["# Software: Microsoft IIS".data]
        ≠ .error (.emptyData "c.log") := by
  constructor
  · decide
  · decide

/-- C7 as amended: a document with zero retained data lines fails with
the empty-data error provided its last `#Fields` directive declares at
least one column name; otherwise the missing-header error takes
precedence. -/
theorem empty_data_error_with_schema (p : String) (lines : List PyStr)
    (h : PyStr) (t : List PyStr)
    (hh : headers_of lines = some (h :: t)) (hr : retained_of lines = []) :
    validate_log_data p lines = .error (.emptyData p) := by
  rw [validate_eq, hh, hr]
  simp

theorem empty_data_error_with_schema_witness :
    validate_log_data "w.log" ["#Fields date time".data] = .error (.emptyData "w.log") :=
  empty_data_error_with_schema _ _ "date".data ["time".data] (by decide) (by decide)

/-- C8: when several `#Fields` directive lines exist, the schema used for
the whole document is the one declared by the last directive in file
order — extraction overwrites `headers` on every match. -/
theorem last_directive_schema_wins (p : String) (xs : List PyStr) (d : PyStr)
    (ys : List PyStr) (h : PyStr) (t : List PyStr)
    (hd : pyStartsWith d "#Fields".data = true)
    (hys : (ys.all fun l => !pyStartsWith l "#Fields".data) = true)
    (hp : (pySplitOn ' ' (pyStrip d)).drop 1 = h :: t)
    (hr : retained_of (xs ++ d :: ys) ≠ []) :
    validate_log_data p (xs ++ d :: ys) = .ok (h :: t, retained_of (xs ++ d :: ys)) := by
  rw [validate_eq,
    headers_of_last_directive xs d ys hd (by
      intro l hl
      simpa using (List.all_eq_true.mp hys) l hl),
    hp]
  simp [hr]

theorem last_directive_schema_wins_witness :
    validate_log_data "s.log"
        (["#Fields date time".data] ++ "#Fields c-ip cs-uri".data :: ["1 2".data])
      = .ok (["c-ip".data, "cs-uri".data],
          retained_of (["#Fields date time".data] ++ "#Fields c-ip cs-uri".data :: ["1 2".data])) :=
  last_directive_schema_wins _ _ _ _ _ _ (by decide) (by decide) (by decide) (by decide)

/-- C9: when the last `#Fields` directive line is exactly the bare marker
token, the extracted column list is empty, and `if not headers` fires:
validation fails with the missing-header error even though a directive
line is present — and even if an earlier directive declared columns,
since the empty declaration overwrites it. -/
theorem empty_last_directive_missing_header (p : String) (xs ys : List PyStr)
    (hys : (ys.all fun l => !pyStartsWith l "#Fields".data) = true) :
    validate_log_data p (xs ++ "#Fields".data :: ys) = .error (.missingHeader p) := by
  rw [validate_eq,
    headers_of_last_directive xs "#Fields".data ys (by decide) (by
      intro l hl
      simpa using (List.all_eq_true.mp hys) l hl),
    show (pySplitOn ' ' (pyStrip "#Fields".data)).drop 1 = ([] : List PyStr) from by decide]

theorem empty_last_directive_missing_header_witness :
    validate_log_data "e.log" (["#Fields date time".data] ++ "#Fields".data :: ["1 2".data])
      = .error (.missingHeader "e.log") :=
  empty_last_directive_missing_header _ _ _ (by decide)

/-- C10: data lines occurring before the `#Fields` directive are retained
exactly like data lines after it, in their original file positions, and
the schema declared by the later directive applies to them. -/
theorem rows_before_directive_retained (p : String) (before after : List PyStr)
    (d : PyStr) (h : PyStr) (t : List PyStr)
    (hdata : ((before ++ after).all fun l =>
        !pyStartsWith l "#".data && !(pyStrip l).isEmpty) = true)
    (hd : pyStartsWith d "#Fields".data = true)
    (hp : (pySplitOn ' ' (pyStrip d)).drop 1 = h :: t)
    (hne : before ≠ []) :
    validate_log_data p (before ++ d :: after)
      = .ok (h :: t, before.map pyStrip ++ after.map pyStrip) := by
  have hprop : ∀ l ∈ before ++ after, pyStartsWith l "#".data = false ∧ pyStrip l ≠ [] := by
    intro l hl
    have hb := (List.all_eq_true.mp hdata) l hl
    simp only [Bool.and_eq_true, Bool.not_eq_true'] at hb
    exact ⟨hb.1, by
      intro hc
      rw [hc] at hb
      simp at hb⟩
  have hnofields : ∀ l ∈ before ++ after, pyStartsWith l "#Fields".data = false :=
    fun l hl => not_fields_of_not_hash l (hprop l hl).1
  have hheaders : headers_of (before ++ d :: after) = some (h :: t) := by
    rw [headers_of_last_directive before d after hd
      (fun l hl => hnofields l (List.mem_append_right before hl)), hp]
  have hret : retained_of (before ++ d :: after) = before.map pyStrip ++ after.map pyStrip := by
    rw [retained_of_append, retained_of_cons, data_step_of_directive d hd,
      retained_of_data before (fun l hl => hprop l (List.mem_append_left after hl)),
      retained_of_data after (fun l hl => hprop l (List.mem_append_right before hl))]
    simp
  rw [validate_eq, hheaders, hret]
  have : before.map pyStrip ++ after.map pyStrip ≠ [] := by
    cases before with
    | nil => cases hne rfl
    | cons x xs => simp
  simp [this]

theorem rows_before_directive_retained_witness :
    validate_log_data "pre.log" (["1 2".data] ++ "#Fields date time".data :: ["3 4".data])
      = .ok (["date".data, "time".data],
          ["1 2".data].map pyStrip ++ ["3 4".data].map pyStrip) :=
  rows_before_directive_retained _ _ _ _ _ _ (by decide) (by decide) (by decide) (by decide)

/-- C1 counterexample: a document whose retained row 3 has one fewer
token than the schema width nevertheless validates successfully — there
is no row-width check and no `InconsistentRowError` in the code — and
CSV output is produced for it, short row included. -/
theorem short_row_document_validates_and_outputs :
    validate_log_data "short.log"
        ["#Fields a b c".data, "1 2 3".data, "4 5 6".data, "7 8".data]
      = .ok (["a".data, "b".data, "c".data], ["1 2 3".data, "4 5 6".data, "7 8".data])
    ∧ write_to_csv ["a".data, "b".data, "c".data] ["1 2 3".data, "4 5 6".data, "7 8".data]
      = "a,b,c\n1,2,3\n4,5,6\n7,8\n".data := by
  constructor
  · decide
  · decide

/-- C1 as amended: validation performs no row-width check at all — every
document whose last `#Fields` directive declares at least one column and
which has at least one retained line validates successfully, yielding
all retained rows whatever their token counts. -/
theorem no_width_check_validation_succeeds (p : String) (lines : List PyStr)
    (h : PyStr) (t : List PyStr)
    (hh : headers_of lines = some (h :: t)) (hr : retained_of lines ≠ []) :
    validate_log_data p lines = .ok (h :: t, retained_of lines) := by
  rw [validate_eq, hh]
  simp [hr]

theorem no_width_check_validation_succeeds_witness :
    validate_log_data "short.log"
        ["#Fields a b c".data, "1 2 3".data, "4 5 6".data, "7 8".data]
      = .ok (["a".data, "b".data, "c".data],
          retained_of ["#Fields a b c".data, "1 2 3".data, "4 5 6".data, "7 8".data]) :=
  no_width_check_validation_succeeds _ _ _ _ (by decide) (by decide)

/-- C3 counterexample: a document that validates successfully but whose
data line contains a comma inside a whitespace-delimited token; the CSV
line for it re-splits into three fields, not the original two, so the
round-trip of the claim fails on this valid document. -/
theorem comma_token_breaks_round_trip :
    validate_log_data "c.log" ["#Fields a b".data, "x,y z".data]
        = .ok (["a".data, "b".data], ["x,y z".data])
    ∧ write_to_csv ["a".data, "b".data] ["x,y z".data] = "a,b\nx,y,z\n".data
    ∧ pySplitComma "x,y,z".data ≠ pySplitWs "x,y z".data := by
  refine ⟨by decide, by decide, by decide⟩

/-- C3 as amended: the CSV output is exactly the header line
(`",".join(headers)`) followed by one serialized line per retained row
in order, and re-splitting an output data line on the comma delimiter
reproduces that row's whitespace tokens provided none of them contains
the comma delimiter itself; the end-to-end scenario of the claim holds
as stated. -/
theorem csv_round_trip :
    (∀ headers log_lines : List PyStr, write_to_csv headers log_lines
        = pyJoin ",".data headers ++ "\n".data ++ lines_text (log_lines.map csv_line))
    ∧ (∀ toks : List PyStr, toks ≠ [] → (∀ tok ∈ toks, ',' ∉ tok) →
        pySplitComma (pyJoin ",".data toks) = toks)
    ∧ validate_log_data "in.log" ["#Fields a b c".data, "1 2 3".data, "4 5 6".data]
        = .ok (["a".data, "b".data, "c".data], ["1 2 3".data, "4 5 6".data])
    ∧ write_to_csv ["a".data, "b".data, "c".data] ["1 2 3".data, "4 5 6".data]
        = "a,b,c\n1,2,3\n4,5,6\n".data := by
  refine ⟨write_to_csv_eq, ?_, by decide, by decide⟩
  intro toks hne hnc
  show List.splitOn ',' (List.intercalate [','] toks) = toks
  exact List.splitOn_intercalate toks ',' hnc hne

theorem csv_round_trip_witness :
    pySplitComma (pyJoin ",".data ["10".data, "200".data]) = ["10".data, "200".data] :=
  csv_round_trip.2.1 ["10".data, "200".data] (by decide) (by decide)

lemma excel_quiet (hs : List PyStr) (r : PyStr) (m : Nat) :
    ∀ (s c : Nat) (chunk : List Row) (wb : Workbook),
      chunk.length + m < CHUNK_SIZE → c + m < EXCEL_ROW_LIMIT →
      (List.replicate m r).foldl (excel_step hs) (s, c, chunk, wb)
        = (s, c + m, chunk ++ List.replicate m (pySplitWs r), wb) := by
  induction m with
  | zero => intro s c chunk wb _ _; simp
  | succ m ih =>
    intro s c chunk wb hlen hcnt
    rw [List.replicate_succ, List.foldl_cons]
    have h1 : ¬ CHUNK_SIZE ≤ chunk.length + 1 := by omega
    have h2 : ¬ EXCEL_ROW_LIMIT ≤ c + 1 := by omega
    have hstep : excel_step hs (s, c, chunk, wb) r = (s, c + 1, chunk ++ [pySplitWs r], wb) := by
      simp [excel_step, h1, h2]
    rw [hstep, ih s (c + 1) (chunk ++ [pySplitWs r]) wb
      (by simp only [List.length_append, List.length_cons, List.length_nil]; omega)
      (by omega)]
    have hc : c + 1 + m = c + (m + 1) := by omega
    have hl : chunk ++ [pySplitWs r] ++ List.replicate m (pySplitWs r)
        = chunk ++ List.replicate (m + 1) (pySplitWs r) := by
      simp [List.replicate_succ, List.append_assoc]
    rw [hc, hl]

lemma excel_step_no_flush_no_roll (hs : List PyStr) (r : PyStr) (s c : Nat)
    (chunk : List Row) (wb : Workbook)
    (h1 : ¬ CHUNK_SIZE ≤ chunk.length + 1) (h2 : ¬ EXCEL_ROW_LIMIT ≤ c + 1) :
    excel_step hs (s, c, chunk, wb) r = (s, c + 1, chunk ++ [pySplitWs r], wb) := by
  simp [excel_step, h1, h2]

lemma excel_step_flush_no_roll (hs : List PyStr) (r : PyStr) (s c : Nat)
    (chunk : List Row) (wb : Workbook)
    (h1 : CHUNK_SIZE ≤ chunk.length + 1) (h2 : ¬ EXCEL_ROW_LIMIT ≤ c + 1) :
    excel_step hs (s, c, chunk, wb) r
      = (s, c + 1, [], to_excel wb (sheet_name s) (hs :: (chunk ++ [pySplitWs r]))) := by
  simp [excel_step, h1, h2]

lemma excel_step_no_flush_roll (hs : List PyStr) (r : PyStr) (s c : Nat)
    (chunk : List Row) (wb : Workbook)
    (h1 : ¬ CHUNK_SIZE ≤ chunk.length + 1) (h2 : EXCEL_ROW_LIMIT ≤ c + 1) :
    excel_step hs (s, c, chunk, wb) r = (s + 1, 0, chunk ++ [pySplitWs r], wb) := by
  simp [excel_step, h1, h2]

lemma excel_chunk (hs : List PyStr) (r : PyStr) (s c : Nat) (wb : Workbook)
    (hcnt : c + CHUNK_SIZE < EXCEL_ROW_LIMIT) :
    (List.replicate CHUNK_SIZE r).foldl (excel_step hs) (s, c, [], wb)
      = (s, c + CHUNK_SIZE, [],
         to_excel wb (sheet_name s) (hs :: List.replicate CHUNK_SIZE (pySplitWs r))) := by
  have hC : CHUNK_SIZE = 10000 := rfl
  have hL : EXCEL_ROW_LIMIT = 1048576 := rfl
  rw [show (List.replicate CHUNK_SIZE r) = List.replicate 9999 r ++ [r] from by
      rw [hC, ← List.replicate_succ'],
    List.foldl_append,
    excel_quiet hs r 9999 s c [] wb (by rw [List.length_nil]; omega) (by omega)]
  have h1 : CHUNK_SIZE ≤ (List.replicate 9999 (pySplitWs r)).length + 1 := by
    rw [List.length_replicate]
    omega
  have h2 : ¬ EXCEL_ROW_LIMIT ≤ c + 9999 + 1 := by omega
  rw [List.nil_append, List.foldl_cons, List.foldl_nil,
    excel_step_flush_no_roll hs r s (c + 9999) _ wb h1 h2, ← List.replicate_succ']
  have hc : c + 9999 + 1 = c + CHUNK_SIZE := by omega
  rw [hc, show (9999 + 1 : Nat) = CHUNK_SIZE from rfl]

lemma to_excel_new (wb : Workbook) (name : String) (content : List Row)
    (h : (wb.any fun s => s.1 == name) = false) :
    to_excel wb name content = wb ++ [(name, content)] := by
  unfold to_excel
  rw [h]
  simp

lemma to_excel_self (name : String) (A : List Row) :
    to_excel [(name, A)] name A = [(name, A)] := by
  unfold to_excel
  rw [show ([(name, A)].any fun s => s.1 == name) = true from by simp]
  simp [List.drop_length]

lemma excel_phase1 (hs : List PyStr) (r : PyStr) (j : Nat) (hj : j ≤ 104) :
    (List.replicate (CHUNK_SIZE * j) r).foldl (excel_step hs) (1, 0, [], [])
      = (1, CHUNK_SIZE * j, [],
         if j = 0 then []
         else [(sheet_name 1, hs :: List.replicate CHUNK_SIZE (pySplitWs r))]) := by
  induction j with
  | zero => simp
  | succ j ih =>
    have hC : CHUNK_SIZE = 10000 := rfl
    have hL : EXCEL_ROW_LIMIT = 1048576 := rfl
    rw [show CHUNK_SIZE * (j + 1) = CHUNK_SIZE * j + CHUNK_SIZE from by ring,
      List.replicate_add, List.foldl_append, ih (by omega),
      excel_chunk hs r 1 (CHUNK_SIZE * j) _ (by rw [hC, hL]; omega)]
    by_cases hj0 : j = 0
    · subst hj0
      rw [if_pos rfl, if_neg (by omega : ¬ (0 + 1 : Nat) = 0),
        to_excel_new [] _ _ rfl, List.nil_append]
    · rw [if_neg hj0, if_neg (by omega : ¬ (j + 1 : Nat) = 0), to_excel_self]

lemma excel_overflow_fold :
    (List.replicate (EXCEL_ROW_LIMIT + 1) "x".data).foldl (excel_step ["h".data]) (1, 0, [], [])
      = (2, 1, List.replicate 8577 (pySplitWs "x".data),
         [(sheet_name 1, ["h".data] :: List.replicate CHUNK_SIZE (pySplitWs "x".data))]) := by
  have hC : CHUNK_SIZE = 10000 := rfl
  have hL : EXCEL_ROW_LIMIT = 1048576 := rfl
  rw [show EXCEL_ROW_LIMIT + 1 = CHUNK_SIZE * 104 + (8575 + (1 + 1)) from by rw [hC, hL],
    List.replicate_add, List.foldl_append,
    excel_phase1 ["h".data] "x".data 104 (by omega),
    if_neg (by omega : ¬ (104 : Nat) = 0),
    List.replicate_add, List.foldl_append,
    excel_quiet ["h".data] "x".data 8575 1 (CHUNK_SIZE * 104) [] _
      (by rw [List.length_nil, hC]; omega) (by rw [hC, hL]; omega),
    List.nil_append,
    List.replicate_add, List.foldl_append, List.replicate_one,
    List.foldl_cons, List.foldl_nil, List.foldl_cons, List.foldl_nil,
    excel_step_no_flush_roll ["h".data] "x".data 1 (CHUNK_SIZE * 104 + 8575) _ _
      (by rw [List.length_replicate, hC]; omega) (by rw [hC, hL]),
    excel_step_no_flush_no_roll ["h".data] "x".data (1 + 1) 0 _ _
      (by rw [List.length_append, List.length_replicate, List.length_cons,
          List.length_nil, hC]; omega)
      (by rw [hL]; omega)]
  have hlist : (List.replicate 8575 (pySplitWs "x".data) ++ [pySplitWs "x".data])
        ++ [pySplitWs "x".data] = List.replicate 8577 (pySplitWs "x".data) := by
    rw [← List.replicate_succ', ← List.replicate_succ']
  rw [hlist]

/-- C2: refuted — for `len(R) = EXCEL_ROW_LIMIT + 1` identical rows, the
workbook does contain two sheets `Sheet1`, `Sheet2`, but each `to_excel`
flush overwrites its sheet from the top (the source passes no row
offset), so `Sheet1` ends up holding only the last full chunk
(`CHUNK_SIZE` rows) and `Sheet2` the final partial chunk (8 577 rows:
the chunk spanning the sheet rollover is flushed entirely to `Sheet2`);
concatenating the sheets yields 18 577 rows, not the 1 048 577 of R. -/
theorem excel_overflow_overwrites_and_loses_rows :
    write_to_excel ["h".data] (List.replicate (EXCEL_ROW_LIMIT + 1) "x".data)
      = [("Sheet1", ["h".data] :: List.replicate CHUNK_SIZE ["x".data]),
         ("Sheet2", ["h".data] :: List.replicate 8577 ["x".data])]
    ∧ (workbook_data_rows
        (write_to_excel ["h".data] (List.replicate (EXCEL_ROW_LIMIT + 1) "x".data))).length
        = CHUNK_SIZE + 8577
    ∧ CHUNK_SIZE + 8577 ≠ EXCEL_ROW_LIMIT + 1 := by
  have hrow : pySplitWs "x".data = ["x".data] := by decide
  have hname2 : sheet_name 2 = "Sheet2" := by decide
  have hname1 : sheet_name 1 = "Sheet1" := by decide
  have hne : List.replicate 8577 (pySplitWs "x".data) ≠ [] := by
    intro h
    have hlen := congrArg List.length h
    rw [List.length_replicate, List.length_nil] at hlen
    omega
  have hunfold : ∀ (hs : List PyStr) (ls : List PyStr),
      write_to_excel hs ls
        = (fun st : Nat × Nat × List Row × Workbook =>
            if st.2.2.1 ≠ [] then to_excel st.2.2.2 (sheet_name st.1) (hs :: st.2.2.1)
            else st.2.2.2)
          (ls.foldl (excel_step hs) (1, 0, [], [])) := fun _ _ => rfl
  have hmain : write_to_excel ["h".data] (List.replicate (EXCEL_ROW_LIMIT + 1) "x".data)
      = [("Sheet1", ["h".data] :: List.replicate CHUNK_SIZE ["x".data]),
         ("Sheet2", ["h".data] :: List.replicate 8577 ["x".data])] := by
    rw [hunfold, excel_overflow_fold]
    dsimp only
    rw [if_pos hne, hname1, hname2,
      to_excel_new _ _ _ (by decide), hrow]
    rfl
  refine ⟨hmain, ?_, by decide⟩
  rw [hmain]
  unfold workbook_data_rows
  rw [List.map_cons, List.map_cons, List.map_nil]
  have hdrop : ∀ (a : Row) (l : List Row), (a :: l).drop 1 = l := fun a l => rfl
  rw [hdrop, hdrop, List.flatten_cons, List.flatten_cons, List.flatten_nil,
    List.append_nil, List.length_append, List.length_replicate, List.length_replicate]

lemma convert_log_to_output_events (r : Except String (List PyStr)) (lf sd dd fmt : String) :
    (convert_log_to_output r lf sd dd fmt).1 = (convert_attempt r lf sd dd fmt).1 := by
  unfold convert_log_to_output
  cases h : convert_attempt r lf sd dd fmt with
  | mk events outcome => cases outcome <;> rfl

lemma convert_attempt_writes (r : Except String (List PyStr)) (lf sd dd fmt : String) :
    (convert_attempt r lf sd dd fmt).2 = .ok ()
    ∨ writes_nothing (convert_attempt r lf sd dd fmt).1 = true := by
  cases hrel : relative_to lf sd with
  | error e =>
    right
    simp only [convert_attempt, hrel]
    rfl
  | ok rel =>
    cases r with
    | error m =>
      right
      simp only [convert_attempt, hrel]
      rfl
    | ok lines =>
      cases hval : validate_log_data lf lines with
      | error e =>
        right
        simp only [convert_attempt, hrel, hval]
        rfl
      | ok pr =>
        obtain ⟨hs, rows⟩ := pr
        by_cases hcsv : pyLower fmt.data = "csv".data
        · left
          simp only [convert_attempt, hrel, hval]
          simp [hcsv]
        · by_cases hx : pyLower fmt.data = "xlsx".data
          · left
            simp only [convert_attempt, hrel, hval]
            simp [hcsv, hx]
          · right
            simp only [convert_attempt, hrel, hval]
            simp [hcsv, hx, writes_nothing, is_write_event]

lemma convert_log_to_output_log_ok (r : Except String (List PyStr)) (lf sd dd fmt : String)
    (h : (convert_attempt r lf sd dd fmt).2 = .ok ()) :
    (convert_log_to_output r lf sd dd fmt).2 = .info ("Converted: " ++ lf) := by
  unfold convert_log_to_output
  cases hca : convert_attempt r lf sd dd fmt with
  | mk ev oc =>
    rw [hca] at h
    cases oc with
    | ok u => rfl
    | error e2 => exact Except.noConfusion h

lemma convert_log_to_output_log_err (r : Except String (List PyStr)) (lf sd dd fmt : String)
    (e : ConvError) (h : (convert_attempt r lf sd dd fmt).2 = .error e) :
    (convert_log_to_output r lf sd dd fmt).2 = .err lf e := by
  unfold convert_log_to_output
  cases hca : convert_attempt r lf sd dd fmt with
  | mk ev oc =>
    rw [hca] at h
    cases oc with
    | ok u => exact Except.noConfusion h
    | error e2 => rw [show e2 = e from Except.error.inj h]

/-- C4: the orchestrator returns normally for every input: either the
conversion succeeded and the success report is produced, or the internal
failure (bad relative path, read/decode failure, validation failure, or
unsupported format) was caught at the `except` boundary — the report
names the source file and the cause, and no destination output was
written, so the file is a no-op and cannot abort sibling conversions. -/
theorem orchestrator_catches_all_failures
    (read_result : Except String (List PyStr))
    (log_file source_dir destination_dir output_format : String) :
    (convert_log_to_output read_result log_file source_dir destination_dir output_format).2
        = .info ("Converted: " ++ log_file)
    ∨ ∃ e : ConvError,
        (convert_log_to_output read_result log_file source_dir destination_dir output_format).2
            = .err log_file e
        ∧ writes_nothing
            (convert_log_to_output read_result log_file source_dir destination_dir
              output_format).1 = true := by
  cases hout : (convert_attempt read_result log_file source_dir destination_dir output_format).2 with
  | ok u =>
    cases u
    exact Or.inl (convert_log_to_output_log_ok _ _ _ _ _ hout)
  | error e =>
    right
    refine ⟨e, convert_log_to_output_log_err _ _ _ _ _ e hout, ?_⟩
    rw [convert_log_to_output_events]
    rcases convert_attempt_writes read_result log_file source_dir destination_dir output_format
      with hok | hnw
    · rw [hout] at hok
      exact Except.noConfusion hok
    · exact hnw

/-- C5: when the source file reads successfully but validation fails, the
orchestrator performs no write of the destination file at all —
`validate_log_data` consumes the whole document and raises before either
writer opens the destination, so only the parent-directory creation ever
happened.  (Read failures and bad paths likewise produce no write.) -/
theorem validation_failure_writes_no_output
    (lines : List PyStr) (log_file source_dir destination_dir output_format : String)
    (e : LogError)
    (hval : validate_log_data log_file lines = .error e) :
    writes_nothing
      (convert_log_to_output (.ok lines) log_file source_dir destination_dir
        output_format).1 = true := by
  rw [convert_log_to_output_events]
  cases hrel : relative_to log_file source_dir with
  | error e2 =>
    simp only [convert_attempt, hrel]
    rfl
  | ok rel =>
    simp only [convert_attempt, hrel, hval]
    rfl

theorem validation_failure_writes_no_output_witness :
    writes_nothing
      (convert_log_to_output (.ok ["# comment only".data]) "logs/a.log" "logs" "out" "csv").1
      = true :=
  validation_failure_writes_no_output _ _ _ _ _ (.missingHeader "logs/a.log") (by decide)
